import Mathlib

/-!
Verification of the IPI operational-risk loss-component pipeline
(`ejecutar_calculo`, `obtener_ipi` and the surrounding indicator computation in
`main2.py`) against its natural-language specification.

The pandas pipeline is embedded shallowly:

* a DataFrame is a `List` of records;
* monetary amounts are exact rationals (`ℚ`); a float `NaN` — a missing cell,
  or the result of coercing a non-numeric value with
  `pd.to_numeric(..., errors="coerce")` at lines 196/202 — is modelled as
  `none : Option ℚ`, and `NaN`-skipping pandas sums become sums of
  `Option.getD · 0`; the raw, possibly unparseable recovery cells that
  line 178 adds before any coercion are modelled separately by `CeldaRec`;
* dates are records of year/month/day (the columns are parsed with
  `pd.to_datetime` before any comparison, so the embedding starts from parsed
  dates); pandas timestamp comparison is comparison of `Date.key`;
* `groupby` over a key becomes: the deduplicated list of keys occurring in the
  frame, together with a per-key aggregate over the rows carrying that key.
-/

set_option allowUnsafeReducibility true in
attribute [semireducible] Rat.add Rat.mul Rat.inv Rat.sub Rat.neg Rat.ofScientific

namespace IPI

/-- Calendar date as held in a parsed pandas datetime column: year, month
(1–12) and day (1–31). -/
structure Date where
  year : Int
  month : Nat
  day : Nat
deriving DecidableEq

namespace Date

/-- Timeline position of a date.  For calendar-valid dates, two dates compare
(in the pandas timestamp sense) exactly as their keys compare. -/
def key (d : Date) : Int := d.year * 512 + (d.month : Int) * 32 + (d.day : Int)

/-- Gregorian leap-year rule, as used by pandas timestamps. -/
def esBisiesto (y : Int) : Bool := (y % 4 == 0 && y % 100 != 0) || y % 400 == 0

/-- Number of days of month `m` of year `y`; `pd.DateOffset` clamps the day of a
shifted date to this bound. -/
def diasMes (y : Int) (m : Nat) : Nat :=
  if m = 2 then (if esBisiesto y then 29 else 28)
  else if m = 4 ∨ m = 6 ∨ m = 9 ∨ m = 11 then 30
  else 31

/-- Calendar validity of a date record. -/
def Valid (d : Date) : Prop :=
  1 ≤ d.month ∧ d.month ≤ 12 ∧ 1 ≤ d.day ∧ d.day ≤ diasMes d.year d.month

instance (d : Date) : Decidable d.Valid := by unfold Valid; infer_instance

end Date

/-- Running maximum of a date column, by timeline key. -/
def maxFechaAux (d : Date) : List Date → Date
  | [] => d
  | e :: es => maxFechaAux (if d.key < e.key then e else d) es

/-- Maximum of a date column (`An9["Fecha_de_registro_contable"].max()`);
`none` models `NaT` on an empty column. -/
def maxFecha : List Date → Option Date
  | [] => none
  | d :: ds => some (maxFechaAux d ds)

/-- Sixty calendar months before a date
(`ultima_fecha - pd.DateOffset(months=60)`): the same month five years
earlier, with the day clamped to the length of that month. -/
def fechaMin (u : Date) : Date :=
  { year := u.year - 5, month := u.month, day := min u.day (Date.diasMes (u.year - 5) u.month) }

/-- Row of the loss register `An9` (RERO_PÉRDIDA), with the date column already
parsed.  `cuantiaBruta = none` models a gross-loss cell that is missing or
fails numeric coercion: nothing touches that column before line 202 coerces
either kind of cell to `NaN` and fills it with `0`. -/
structure LossRow where
  referencia : String
  fecha : Date
  cuantiaBruta : Option ℚ
  claseRiesgo : Int
  cuentas : String
deriving DecidableEq

/-- Row of the recoveries register `An10` (RERO_RECUPERADO) whose two amount
cells are numeric or missing.  `none` models a missing cell, which
`pd.read_excel` reads as float `NaN` (a missing cell does not fail numeric
coercion: `to_numeric` passes `NaN` through).  A cell that does fail numeric
coercion is a non-null text value and is modelled separately by
`RecRowCrudo`. -/
structure RecRow where
  referencia : String
  fechaRecuperacion : Date
  seguros : Option ℚ
  otras : Option ℚ
  cuentas : String
deriving DecidableEq

/-- Float addition with `NaN` propagation: the behaviour of line 178's
element-wise `An10` column addition on a row whose two cells are numeric or
missing.  `suma178` extends it to raw cells, where unparseable text makes the
addition raise instead. -/
def nanSuma (a b : Option ℚ) : Option ℚ :=
  match a, b with
  | some x, some y => some (x + y)
  | _, _ => none

/-- Per-row derived column `An10["Recuperacion"]` (line 178). -/
def recuperacionRow (r : RecRow) : Option ℚ := nanSuma r.seguros r.otras

/-- Aggregated recovery of one reference: the `groupby("Referencia")` sum of
`Recuperacion` (`NaN` rows skipped, as pandas `sum` does), combined with the
post-merge `pd.to_numeric(...).fillna(0)` of line 196 — a reference absent
from `An10` yields `0`, exactly as the sum over its empty group does. -/
def recuperacionRef (an10 : List RecRow) (ref : String) : ℚ :=
  ((an10.filter (fun r => decide (r.referencia = ref))).map
    (fun r => (recuperacionRow r).getD 0)).sum

/-- Aggregated `Fecha_de_recuperacion` of one reference (`"max"` aggregate);
`none` models the `NaT` a reference without recoveries receives from the left
join. -/
def fechaRecuperacionRef (an10 : List RecRow) (ref : String) : Option Date :=
  maxFecha ((an10.filter (fun r => decide (r.referencia = ref))).map (·.fechaRecuperacion))

/-- Aggregated `Cuentas Catálogo Recuperación` of one reference (`"first"`
aggregate), with the `fillna("")` of line 197 for unmatched references. -/
def catalogoRef (an10 : List RecRow) (ref : String) : String :=
  (((an10.filter (fun r => decide (r.referencia = ref))).head?).map (·.cuentas)).getD ""

/-- Row of the processed frame `DATA`: the windowed loss event enriched with
its aggregated recovery and net loss. -/
structure DataRow where
  referencia : String
  fecha : Date
  fechaRecuperacion : Option Date
  cuantiaBruta : ℚ
  recuperacion : ℚ
  perdidaNeta : ℚ
  claseRiesgo : Int
  cuentas : String
  cuentasRecuperacion : String
deriving DecidableEq

/-- Sixty-month window filter (lines 163–172): keep the loss rows whose date
lies between `fecha_min` and the register's latest date, inclusive.  An empty
register has `ultima_fecha = NaT`, every comparison with which is false. -/
def an9Ventana (an9 : List LossRow) : List LossRow :=
  match maxFecha (an9.map (·.fecha)) with
  | none => []
  | some u => an9.filter (fun r =>
      decide ((fechaMin u).key ≤ r.fecha.key ∧ r.fecha.key ≤ u.key))

/-- Stages 1–3 of `ejecutar_calculo`: window filter, left join with the
aggregated recoveries, numeric normalisation and net loss (lines 163–228).
Every windowed loss row yields exactly one enriched row. -/
def mkData (an9 : List LossRow) (an10 : List RecRow) : List DataRow :=
  (an9Ventana an9).map (fun r =>
    let bruta := r.cuantiaBruta.getD 0
    let recu := recuperacionRef an10 r.referencia
    { referencia := r.referencia
      fecha := r.fecha
      fechaRecuperacion := fechaRecuperacionRef an10 r.referencia
      cuantiaBruta := bruta
      recuperacion := recu
      perdidaNeta := bruta - recu
      claseRiesgo := r.claseRiesgo
      cuentas := r.cuentas
      cuentasRecuperacion := catalogoRef an10 r.referencia })

/-- Band year before shifting (lines 234–235): the calendar year, minus one for
events dated January–October, so the band rolls over each November 1. -/
def anioNov (d : Date) : Int := if d.month ≤ 10 then d.year - 1 else d.year

/-- Minimum band year present in the data (line 236); the value on an empty
frame is irrelevant (pandas would give `NaN` and an empty column). -/
def minAnioNov (rows : List DataRow) : Int :=
  ((rows.map (fun r => anioNov r.fecha)).min?).getD 0

/-- Band index `Año_banda` of a row (line 236): one-based offset of its band
year from the dataset's minimum band year. -/
def bandaOf (rows : List DataRow) (r : DataRow) : Int :=
  anioNov r.fecha - minAnioNov rows + 1

/-- Group keys of `DATA.groupby(["Año_banda", "Referencia"])` (lines 241–246). -/
def clavesBandaRef (rows : List DataRow) : List (Int × String) :=
  (rows.map (fun r => (bandaOf rows r, r.referencia))).dedup

/-- Summed net loss of one `(Año_banda, Referencia)` group. -/
def sumaNeta (rows : List DataRow) (b : Int) (ref : String) : ℚ :=
  ((rows.filter (fun r => decide (bandaOf rows r = b ∧ r.referencia = ref))).map
    (·.perdidaNeta)).sum

/-- Keys of `df_filtrado` (lines 248–250): the `(band, reference)` groups whose
summed net loss strictly exceeds the threshold.  The frame's net-loss column
at a key is `sumaNeta` of that key. -/
def dfFiltrado (rows : List DataRow) (umbral : ℚ) : List (Int × String) :=
  (clavesBandaRef rows).filter (fun k => decide (sumaNeta rows k.1 k.2 > umbral))

/-- References flagged Type A (`refs_umbral`, line 252): those appearing in
`df_filtrado` for at least one band. -/
def refsUmbral (rows : List DataRow) (umbral : ℚ) : List String :=
  ((dfFiltrado rows umbral).map (·.2)).dedup

/-- Bands carrying a Type-A entry (`df_filtrado["Año_banda"].unique()`). -/
def bandasTipoA (rows : List DataRow) (umbral : ℚ) : List Int :=
  ((dfFiltrado rows umbral).map (·.1)).dedup

/-- Per-band Type-A total (`totalizador_umbral`, lines 258–266): the sum of the
over-threshold group sums of that band. -/
def totalTipoA (rows : List DataRow) (umbral : ℚ) (b : Int) : ℚ :=
  (((dfFiltrado rows umbral).filter (fun k => decide (k.1 = b))).map
    (fun k => sumaNeta rows k.1 k.2)).sum

/-- Provisional Type-B frame `DATA2` (lines 253 and 268): the rows whose
reference is not Type A. -/
def data2 (rows : List DataRow) (umbral : ℚ) : List DataRow :=
  rows.filter (fun r => decide (r.referencia ∉ refsUmbral rows umbral))

/-- Fixed level-2 risk-class lookup table `map_riesgo_nivel_2`
(lines 270–306); `none` models the `NaN` that `Series.map` gives an unmapped
code. -/
def mapRiesgoNivel2 (c : Int) : Option String :=
  if c = 11 then some "1.1 Actividades no Autorizadas"
  else if c = 12 then some "1.2 Hurto y Fraude Interno"
  else if c = 13 then some "1.3 Seguridad de los sistemas"
  else if c = 14 then some "1.4 Otros"
  else if c = 21 then some "2.1 Hurto y Fraude Externo"
  else if c = 22 then some "2.2 Seguridad de los sistemas"
  else if c = 23 then some "2.3 Otros"
  else if c = 31 then some "3.1 Relaciones Laborales"
  else if c = 32 then some "3.2 Higiene y Seguridad laboral"
  else if c = 33 then some "3.3 Desigualdad y Discriminación"
  else if c = 34 then some "3.4 Otros"
  else if c = 41 then some "4.1 Indebida Divulgación de Información y Abuso de Confianza"
  else if c = 42 then some "4.2 Prácticas Empresariales o de Mercado Improcedentes"
  else if c = 43 then some "4.3 Productos inadecuados"
  else if c = 44 then some "4.4 Actividades de Asesoramiento"
  else if c = 45 then some "4.5 Otros"
  else if c = 51 then some "5.1 Desastres naturales"
  else if c = 52 then some "5.2 Otros acontecimientos"
  else if c = 53 then some "5.3 Otras causas externas"
  else if c = 61 then some "6.1 Sistemas"
  else if c = 62 then some "6.2 Otros"
  else if c = 71 then some "7.1 Recepción, Ejecución y Mantenimiento de Operaciones"
  else if c = 72 then some "7.2 Seguimiento y Presentación de Informes"
  else if c = 73 then some "7.3 Aceptación de Clientes y Documentación"
  else if c = 74 then some "7.4 Gestión de Cuentas de Clientes"
  else if c = 75 then some "7.5 Incumplimiento de la regulación vigente"
  else if c = 76 then some "7.6 Acuerdos y Convenios Comerciales"
  else if c = 77 then some "7.7 Proveedores"
  else if c = 78 then some "7.8 Otros"
  else none

/-- Group keys of `DATA2.groupby(["Clase_de_riesgo_operacional_nivel_2",
"Año_banda"])` (line 311) after the `map` of line 308.  Rows whose code is
unmapped carry a `NaN` key and are dropped by `groupby`, hence the
`filterMap`. -/
def clavesClaseBanda (rows : List DataRow) (umbral : ℚ) : List (String × Int) :=
  ((data2 rows umbral).filterMap (fun r =>
    (mapRiesgoNivel2 r.claseRiesgo).map (fun lbl => (lbl, bandaOf rows r)))).dedup

/-- Summed gross loss of one `(category label, band)` group of `DATA2`. -/
def sumaBruta (rows : List DataRow) (umbral : ℚ) (lbl : String) (b : Int) : ℚ :=
  (((data2 rows umbral).filter (fun r =>
      decide (mapRiesgoNivel2 r.claseRiesgo = some lbl ∧ bandaOf rows r = b))).map
    (·.cuantiaBruta)).sum

/-- Type-B flagged set `clases_B` (lines 312 and 332–337): the category/band
groups whose summed gross loss reaches the threshold (non-strict `≥`). -/
def clasesB (rows : List DataRow) (umbral : ℚ) : List (String × Int) :=
  (clavesClaseBanda rows umbral).filter (fun k =>
    decide (sumaBruta rows umbral k.1 k.2 ≥ umbral))

/-- Bands carrying a Type-B entry (`totalizador_umbral_anio`, line 313). -/
def bandasTipoB (rows : List DataRow) (umbral : ℚ) : List Int :=
  ((clasesB rows umbral).map (·.2)).dedup

/-- Per-band Type-B total (line 313): summed gross loss of the flagged groups
of that band. -/
def totalTipoB (rows : List DataRow) (umbral : ℚ) (b : Int) : ℚ :=
  (((clasesB rows umbral).filter (fun k => decide (k.2 = b))).map
    (fun k => sumaBruta rows umbral k.1 k.2)).sum

/-- Band columns of `tabla_final` (line 321): the union of the bands indexing
the Tipo A series and the Tipo B series; `pd.concat(..., axis=1).fillna(0)`
fills the missing side of each with `0`, which `totalTipoA`/`totalTipoB`
already return for an absent band. -/
def bandasTabla (rows : List DataRow) (umbral : ℚ) : List Int :=
  (bandasTipoA rows umbral ++ bandasTipoB rows umbral).dedup

/-- Average annual loss (lines 322–330): the mean of the TOTAL row of
`tabla_final` over its band columns, excluding the TOTAL column.  `tabla_final`
always contains its TOTAL row and TOTAL column, so the `tabla_final.empty`
guard of line 326 is never taken and the mean is formed unconditionally; with
no band columns it is the pandas mean of an empty series, i.e. `NaN`, modelled
as `none`. -/
def promedioAnual (rows : List DataRow) (umbral : ℚ) : Option ℚ :=
  let bs := bandasTabla rows umbral
  if bs.isEmpty then none
  else some (((bs.map (fun b => totalTipoA rows umbral b + totalTipoB rows umbral b)).sum)
    / (bs.length : ℚ))

/-- Final three-tier classification `asignar_umbral` (lines 339–350), applied
to every row of `DATA`: reference flagged Type A wins, then membership of the
row's mapped category and band in `clases_B`, else `"N/A"`.  An unmapped code
has a `NaN` category, which belongs to no `clases_B` key. -/
def asignarUmbral (rows : List DataRow) (umbral : ℚ) (r : DataRow) : String :=
  if r.referencia ∈ refsUmbral rows umbral then "A"
  else
    match mapRiesgoNivel2 r.claseRiesgo with
    | some lbl => if (lbl, bandaOf rows r) ∈ clasesB rows umbral then "B" else "N/A"
    | none => "N/A"

/-- Result bundle of `ejecutar_calculo` (line 356): the classified data, the
over-threshold group keys, and the average annual loss. -/
structure Resultado where
  data : List (DataRow × String)
  filtrado : List (Int × String)
  promedio : Option ℚ
deriving DecidableEq

/-- The calculation pipeline `ejecutar_calculo` end to end. -/
def ejecutarCalculo (an9 : List LossRow) (an10 : List RecRow) (umbral : ℚ) : Resultado :=
  let rows := mkData an9 an10
  { data := rows.map (fun r => (r, asignarUmbral rows umbral r))
    filtrado := dfFiltrado rows umbral
    promedio := promedioAnual rows umbral }

/-- Capital result `cp_calculado = promedio_anual * 15` (line 400); `NaN`
propagates. -/
def cpCalculado (promedio : Option ℚ) : Option ℚ := promedio.map (· * 15)

/-- Ratio `c_cociente` (line 401): capital result over CIN when CIN is
positive, else the literal `0` (which is a real number even when the promedio
is `NaN`). -/
def cCociente (promedio : Option ℚ) (cin : ℚ) : Option ℚ :=
  if cin > 0 then (cpCalculado promedio).map (· / cin) else some 0

/-- Regulatory IPI breakpoint lookup `obtener_ipi` (lines 127–138). -/
def obtenerIpi (c : ℚ) : ℚ :=
  if c ≤ 0.2 then 0.7
  else if c ≤ 0.4 then 0.8
  else if c ≤ 0.7 then 0.9
  else if c ≤ 1.0 then 1.0
  else if c ≤ 1.4 then 1.1
  else if c ≤ 1.8 then 1.2
  else if c ≤ 2.3 then 1.3
  else if c ≤ 2.9 then 1.4
  else if c ≤ 3.6 then 1.5
  else if c ≤ 4.4 then 1.6
  else 1.7

end IPI

namespace IPI

/-! ### Auxiliary lemmas about the embedding -/

theorem maxFechaAux_key_le (d : Date) (l : List Date) :
    ∀ x ∈ d :: l, x.key ≤ (maxFechaAux d l).key := by
  induction l generalizing d with
  | nil =>
    intro x hx
    rcases List.mem_cons.mp hx with h | h
    · subst h; exact le_refl _
    · cases h
  | cons e es ih =>
    intro x hx
    have hd : d.key ≤ (if d.key < e.key then e else d).key := by
      split
      · omega
      · exact le_refl _
    have he : e.key ≤ (if d.key < e.key then e else d).key := by
      split
      · exact le_refl _
      · omega
    rcases List.mem_cons.mp hx with h | h
    · subst h
      exact le_trans hd (ih _ _ (List.mem_cons_self _ _))
    · rcases List.mem_cons.mp h with h2 | h2
      · subst h2
        exact le_trans he (ih _ _ (List.mem_cons_self _ _))
      · exact ih _ x (List.mem_cons_of_mem _ h2)

theorem maxFechaAux_mem (d : Date) (l : List Date) : maxFechaAux d l ∈ d :: l := by
  induction l generalizing d with
  | nil => exact List.mem_cons_self _ _
  | cons e es ih =>
    have h := ih (if d.key < e.key then e else d)
    rcases List.mem_cons.mp h with h2 | h2
    · rw [show maxFechaAux d (e :: es) = maxFechaAux (if d.key < e.key then e else d) es from rfl,
        h2]
      split
      · exact List.mem_cons_of_mem _ (List.mem_cons_self _ _)
      · exact List.mem_cons_self _ _
    · exact List.mem_cons_of_mem _ (List.mem_cons_of_mem _ h2)

theorem diasMes_le (y : Int) (m : Nat) : Date.diasMes y m ≤ 31 := by
  unfold Date.diasMes
  split
  · split <;> omega
  · split <;> omega

theorem fechaMin_key_le (u : Date) : (fechaMin u).key ≤ u.key := by
  unfold fechaMin Date.key
  have h : min u.day (Date.diasMes (u.year - 5) u.month) ≤ u.day := Nat.min_le_left _ _
  simp only []
  omega

theorem anioNov_mono {d1 d2 : Date} (h1 : d1.Valid) (h2 : d2.Valid)
    (hlt : d1.key < d2.key) : anioNov d1 ≤ anioNov d2 := by
  obtain ⟨hm1, hm1b, hd1, hd1b⟩ := h1
  obtain ⟨hm2, hm2b, hd2, hd2b⟩ := h2
  have hb1 : d1.day ≤ 31 := le_trans hd1b (diasMes_le _ _)
  have hb2 : d2.day ≤ 31 := le_trans hd2b (diasMes_le _ _)
  unfold Date.key at hlt
  unfold anioNov
  split <;> split <;> omega

theorem mem_refsUmbral_iff (rows : List DataRow) (umbral : ℚ) (ref : String) :
    ref ∈ refsUmbral rows umbral ↔ ∃ b, (b, ref) ∈ dfFiltrado rows umbral := by
  unfold refsUmbral
  rw [List.mem_dedup, List.mem_map]
  constructor
  · rintro ⟨⟨b, r⟩, hm, rfl⟩
    exact ⟨b, hm⟩
  · rintro ⟨b, hm⟩
    exact ⟨(b, ref), hm, rfl⟩

/-! ### Concrete instances used by the claim theorems and their witnesses -/

/-- Single loss event of the end-to-end scenario: gross loss 30,000,000 and no
matching recovery. -/
def evento1 : LossRow :=
  { referencia := "E1", fecha := ⟨2024, 3, 15⟩, cuantiaBruta := some 30000000
    claseRiesgo := 11, cuentas := "" }

/-- Threshold of the end-to-end scenario (the app's default `umbral_val`). -/
def umbral1 : ℚ := 27470842.66

/-- Capital indicator of the end-to-end scenario (the app's default
`cin_input`). -/
def cin1 : ℚ := 13946774132.33

/-! ### Claim theorems -/

/-- C1: for a loss register holding the single event `evento1` (gross loss
30,000,000, no recovery, date in band 1) with threshold 27,470,842.66 and
CIN 13,946,774,132.33, the pipeline classifies the event "A", the Type-A
band-1 total is 30,000,000, the average annual loss is 30,000,000, the
capital result is 450,000,000, the ratio C is approximately 0.0323, and the
IPI is 0.7. -/
theorem escenario_evento_unico :
    (mkData [evento1] []).map (bandaOf (mkData [evento1] [])) = [1]
    ∧ (ejecutarCalculo [evento1] [] umbral1).data.map (·.2) = ["A"]
    ∧ totalTipoA (mkData [evento1] []) umbral1 1 = 30000000
    ∧ (ejecutarCalculo [evento1] [] umbral1).promedio = some 30000000
    ∧ cpCalculado (ejecutarCalculo [evento1] [] umbral1).promedio = some 450000000
    ∧ cCociente (ejecutarCalculo [evento1] [] umbral1).promedio cin1
        = some (45000000000 / 1394677413233)
    ∧ |(45000000000 : ℚ) / 1394677413233 - 0.0323| < 0.0001
    ∧ obtenerIpi (45000000000 / 1394677413233) = 0.7 := by
  decide

/-- C4: on a degenerate input (empty loss register, hence no bands), the
pipeline does return a well-formed empty result bundle, but its average annual
loss is the pandas mean of an empty series — `NaN`, modelled `none` — and not
the `0` the specification requires: the `tabla_final.empty` guard of line 326
can never fire because the TOTAL row and column have already been added. -/
theorem promedio_degenerado :
    ejecutarCalculo [] [] 0 = ⟨[], [], none⟩
    ∧ (ejecutarCalculo [] [] 0).promedio ≠ some 0 := by
  decide

/-- C7: `obtener_ipi` reproduces the regulatory breakpoint table, each bracket
inclusive of its upper bound; in particular C = 0.2 ↦ 0.7, C = 0.2000001 ↦ 0.8,
C = 5.0 ↦ 1.7 and C = 0 ↦ 0.7. -/
theorem obtenerIpi_exacto :
    (∀ c : ℚ,
      (c ≤ 0.2 → obtenerIpi c = 0.7) ∧
      (0.2 < c → c ≤ 0.4 → obtenerIpi c = 0.8) ∧
      (0.4 < c → c ≤ 0.7 → obtenerIpi c = 0.9) ∧
      (0.7 < c → c ≤ 1.0 → obtenerIpi c = 1.0) ∧
      (1.0 < c → c ≤ 1.4 → obtenerIpi c = 1.1) ∧
      (1.4 < c → c ≤ 1.8 → obtenerIpi c = 1.2) ∧
      (1.8 < c → c ≤ 2.3 → obtenerIpi c = 1.3) ∧
      (2.3 < c → c ≤ 2.9 → obtenerIpi c = 1.4) ∧
      (2.9 < c → c ≤ 3.6 → obtenerIpi c = 1.5) ∧
      (3.6 < c → c ≤ 4.4 → obtenerIpi c = 1.6) ∧
      (4.4 < c → obtenerIpi c = 1.7))
    ∧ obtenerIpi 0.2 = 0.7
    ∧ obtenerIpi 0.2000001 = 0.8
    ∧ obtenerIpi 5.0 = 1.7
    ∧ obtenerIpi 0 = 0.7 := by
  refine ⟨fun c => ?_, by decide, by decide, by decide, by decide⟩
  unfold obtenerIpi
  refine ⟨fun h => ?_, fun h1 h2 => ?_, fun h1 h2 => ?_, fun h1 h2 => ?_, fun h1 h2 => ?_,
    fun h1 h2 => ?_, fun h1 h2 => ?_, fun h1 h2 => ?_, fun h1 h2 => ?_, fun h1 h2 => ?_,
    fun h1 => ?_⟩
  · rw [if_pos h]
  · rw [if_neg (not_le.mpr h1), if_pos h2]
  · rw [if_neg (not_le.mpr (lt_of_le_of_lt (by decide) h1)), if_neg (not_le.mpr h1), if_pos h2]
  · rw [if_neg (not_le.mpr (lt_of_le_of_lt (by decide) h1)),
      if_neg (not_le.mpr (lt_of_le_of_lt (by decide) h1)), if_neg (not_le.mpr h1), if_pos h2]
  · rw [if_neg (not_le.mpr (lt_of_le_of_lt (by decide) h1)),
      if_neg (not_le.mpr (lt_of_le_of_lt (by decide) h1)),
      if_neg (not_le.mpr (lt_of_le_of_lt (by decide) h1)), if_neg (not_le.mpr h1), if_pos h2]
  · rw [if_neg (not_le.mpr (lt_of_le_of_lt (by decide) h1)),
      if_neg (not_le.mpr (lt_of_le_of_lt (by decide) h1)),
      if_neg (not_le.mpr (lt_of_le_of_lt (by decide) h1)),
      if_neg (not_le.mpr (lt_of_le_of_lt (by decide) h1)), if_neg (not_le.mpr h1), if_pos h2]
  · rw [if_neg (not_le.mpr (lt_of_le_of_lt (by decide) h1)),
      if_neg (not_le.mpr (lt_of_le_of_lt (by decide) h1)),
      if_neg (not_le.mpr (lt_of_le_of_lt (by decide) h1)),
      if_neg (not_le.mpr (lt_of_le_of_lt (by decide) h1)),
      if_neg (not_le.mpr (lt_of_le_of_lt (by decide) h1)), if_neg (not_le.mpr h1), if_pos h2]
  · rw [if_neg (not_le.mpr (lt_of_le_of_lt (by decide) h1)),
      if_neg (not_le.mpr (lt_of_le_of_lt (by decide) h1)),
      if_neg (not_le.mpr (lt_of_le_of_lt (by decide) h1)),
      if_neg (not_le.mpr (lt_of_le_of_lt (by decide) h1)),
      if_neg (not_le.mpr (lt_of_le_of_lt (by decide) h1)),
      if_neg (not_le.mpr (lt_of_le_of_lt (by decide) h1)), if_neg (not_le.mpr h1), if_pos h2]
  · rw [if_neg (not_le.mpr (lt_of_le_of_lt (by decide) h1)),
      if_neg (not_le.mpr (lt_of_le_of_lt (by decide) h1)),
      if_neg (not_le.mpr (lt_of_le_of_lt (by decide) h1)),
      if_neg (not_le.mpr (lt_of_le_of_lt (by decide) h1)),
      if_neg (not_le.mpr (lt_of_le_of_lt (by decide) h1)),
      if_neg (not_le.mpr (lt_of_le_of_lt (by decide) h1)),
      if_neg (not_le.mpr (lt_of_le_of_lt (by decide) h1)), if_neg (not_le.mpr h1), if_pos h2]
  · rw [if_neg (not_le.mpr (lt_of_le_of_lt (by decide) h1)),
      if_neg (not_le.mpr (lt_of_le_of_lt (by decide) h1)),
      if_neg (not_le.mpr (lt_of_le_of_lt (by decide) h1)),
      if_neg (not_le.mpr (lt_of_le_of_lt (by decide) h1)),
      if_neg (not_le.mpr (lt_of_le_of_lt (by decide) h1)),
      if_neg (not_le.mpr (lt_of_le_of_lt (by decide) h1)),
      if_neg (not_le.mpr (lt_of_le_of_lt (by decide) h1)),
      if_neg (not_le.mpr (lt_of_le_of_lt (by decide) h1)), if_neg (not_le.mpr h1), if_pos h2]
  · rw [if_neg (not_le.mpr (lt_of_le_of_lt (by decide) h1)),
      if_neg (not_le.mpr (lt_of_le_of_lt (by decide) h1)),
      if_neg (not_le.mpr (lt_of_le_of_lt (by decide) h1)),
      if_neg (not_le.mpr (lt_of_le_of_lt (by decide) h1)),
      if_neg (not_le.mpr (lt_of_le_of_lt (by decide) h1)),
      if_neg (not_le.mpr (lt_of_le_of_lt (by decide) h1)),
      if_neg (not_le.mpr (lt_of_le_of_lt (by decide) h1)),
      if_neg (not_le.mpr (lt_of_le_of_lt (by decide) h1)),
      if_neg (not_le.mpr (lt_of_le_of_lt (by decide) h1)), if_neg (not_le.mpr h1)]

/-- Witness for C7: a value interior to the second bracket, with both bracket
bounds discharged concretely. -/
theorem obtenerIpi_exacto_witness : (0.2 : ℚ) < 0.3 ∧ obtenerIpi 0.3 = 0.8 :=
  ⟨by decide, (obtenerIpi_exacto.1 0.3).2.1 (by decide) (by decide)⟩

end IPI

namespace IPI

/-- C2: in the pipeline's data, a `(band, reference)` group whose summed net
loss is exactly the threshold does not enter `df_filtrado` (the Type-A test is
strict `>`); a reference all of whose per-band net-loss sums stay at or below
the threshold is not flagged Type A at all; and a `(category, band)` group of
`DATA2` whose summed gross loss is exactly the threshold is flagged Type B
(the Type-B test is `≥`). -/
theorem umbral_estricto_asimetrico (an9 : List LossRow) (an10 : List RecRow) (umbral : ℚ) :
    (∀ b ref, sumaNeta (mkData an9 an10) b ref = umbral →
      (b, ref) ∉ dfFiltrado (mkData an9 an10) umbral)
    ∧ (∀ ref, (∀ b, sumaNeta (mkData an9 an10) b ref ≤ umbral) →
      ref ∉ refsUmbral (mkData an9 an10) umbral)
    ∧ (∀ k, k ∈ clavesClaseBanda (mkData an9 an10) umbral →
      sumaBruta (mkData an9 an10) umbral k.1 k.2 = umbral →
      k ∈ clasesB (mkData an9 an10) umbral) := by
  refine ⟨fun b ref h hmem => ?_, fun ref hle hmem => ?_, fun k hk h => ?_⟩
  · have h2 := of_decide_eq_true (List.mem_filter.mp hmem).2
    rw [h] at h2
    exact lt_irrefl umbral h2
  · obtain ⟨b, hb⟩ := (mem_refsUmbral_iff _ _ _).mp hmem
    have h2 := of_decide_eq_true (List.mem_filter.mp hb).2
    exact absurd h2 (not_lt.mpr (hle b))
  · exact List.mem_filter.mpr ⟨hk, decide_eq_true (by rw [h])⟩

/-- Loss register for the C2 witness: one event whose net loss equals the
threshold exactly. -/
def a9c2 : List LossRow :=
  [{ referencia := "R", fecha := ⟨2024, 3, 15⟩, cuantiaBruta := some 50
     claseRiesgo := 11, cuentas := "" }]

/-- The enriched row the pipeline produces for `a9c2`. -/
def filaC2 : DataRow :=
  { referencia := "R", fecha := ⟨2024, 3, 15⟩, fechaRecuperacion := none
    cuantiaBruta := 50, recuperacion := 0, perdidaNeta := 50, claseRiesgo := 11
    cuentas := "", cuentasRecuperacion := "" }

/-- Witness for C2: with threshold 50, the single group sums to exactly 50, so
its `(band, reference)` pair is not Type A, the reference is unflagged, and its
`(category, band)` group is Type B. -/
theorem umbral_estricto_asimetrico_witness :
    (1, "R") ∉ dfFiltrado (mkData a9c2 []) 50
    ∧ "R" ∉ refsUmbral (mkData a9c2 []) 50
    ∧ ("1.1 Actividades no Autorizadas", 1) ∈ clasesB (mkData a9c2 []) 50 :=
  ⟨(umbral_estricto_asimetrico a9c2 [] 50).1 1 "R" (by decide),
   (umbral_estricto_asimetrico a9c2 [] 50).2.1 "R" (fun b => by
      have hrows : mkData a9c2 [] = [filaC2] := by decide
      rw [hrows]
      by_cases hb : b = 1
      · subst hb; decide
      · have hp : (decide (bandaOf [filaC2] filaC2 = b ∧ filaC2.referencia = "R")) = false := by
          rw [decide_eq_false_iff_not]
          rintro ⟨h1, -⟩
          have h2 : bandaOf [filaC2] filaC2 = 1 := by decide
          exact hb (h1.symm.trans h2)
        unfold sumaNeta
        rw [List.filter_cons, if_neg (by simp [hp]), List.filter_nil]
        decide),
   (umbral_estricto_asimetrico a9c2 [] 50).2.2 _ (by decide) (by decide)⟩

/-- C10 counterexample (to the claim's description of the lookup table): the
fixed `map_riesgo_nivel_2` table maps 29 level-2 codes, not 38; every code it
maps lies below 100. -/
theorem mapa_riesgo_codigos :
    (((List.range 100).map (fun n => (n : Int))).filter
      (fun c => (mapRiesgoNivel2 c).isSome)).length = 29
    ∧ (29 : Nat) ≠ 38 := by
  decide

/-- C10 (amended to the table's 29 codes): a row whose level-2 code is
unmapped contributes to no `(category, band)` group of the Type-B aggregation,
and its final classification is "A" exactly when its reference is Type A and
"N/A" otherwise — never "B". -/
theorem codigo_no_mapeado (an9 : List LossRow) (an10 : List RecRow) (umbral : ℚ) :
    ∀ r ∈ mkData an9 an10, mapRiesgoNivel2 r.claseRiesgo = none →
      (∀ lbl b, r ∉ (data2 (mkData an9 an10) umbral).filter (fun x =>
          decide (mapRiesgoNivel2 x.claseRiesgo = some lbl
            ∧ bandaOf (mkData an9 an10) x = b)))
      ∧ asignarUmbral (mkData an9 an10) umbral r =
          (if r.referencia ∈ refsUmbral (mkData an9 an10) umbral then "A" else "N/A")
      ∧ asignarUmbral (mkData an9 an10) umbral r ≠ "B" := by
  intro r _ hnone
  refine ⟨fun lbl b hmem => ?_, ?_, ?_⟩
  · have h2 := of_decide_eq_true (List.mem_filter.mp hmem).2
    rw [hnone] at h2
    exact Option.noConfusion h2.1
  · unfold asignarUmbral
    rw [hnone]
  · unfold asignarUmbral
    rw [hnone]
    split
    · decide
    · show ("N/A" : String) ≠ "B"
      decide

/-- Loss register for the C10 witness: a single event with the unmapped
level-2 code 99, below the threshold. -/
def a9c10 : List LossRow :=
  [{ referencia := "S", fecha := ⟨2024, 3, 15⟩, cuantiaBruta := some 10
     claseRiesgo := 99, cuentas := "" }]

/-- The enriched row the pipeline produces for `a9c10`. -/
def filaC10 : DataRow :=
  { referencia := "S", fecha := ⟨2024, 3, 15⟩, fechaRecuperacion := none
    cuantiaBruta := 10, recuperacion := 0, perdidaNeta := 10, claseRiesgo := 99
    cuentas := "", cuentasRecuperacion := "" }

/-- Witness for C10: the code-99 row is in no Type-B group and is classified
"N/A", not "B". -/
theorem codigo_no_mapeado_witness :
    filaC10 ∉ (data2 (mkData a9c10 []) 50).filter (fun x =>
        decide (mapRiesgoNivel2 x.claseRiesgo = some "7.8 Otros"
          ∧ bandaOf (mkData a9c10 []) x = 1))
    ∧ asignarUmbral (mkData a9c10 []) 50 filaC10 = "N/A"
    ∧ asignarUmbral (mkData a9c10 []) 50 filaC10 ≠ "B" := by
  have h := codigo_no_mapeado a9c10 [] 50 filaC10 (by decide) (by decide)
  exact ⟨h.1 "7.8 Otros" 1, by rw [h.2.1]; decide, h.2.2⟩

/-- C5: when the loss register is nonempty, its computed `ultima_fecha` is the
latest date present; a row survives the window filter exactly when its date
lies in `[fecha_min, ultima_fecha]` inclusive, and in particular a row dated
exactly `ultima_fecha − 60 months` is retained. -/
theorem ventana_correcta (an9 : List LossRow) (u : Date)
    (h : maxFecha (an9.map (·.fecha)) = some u) :
    (∀ r ∈ an9, r.fecha.key ≤ u.key)
    ∧ u ∈ an9.map (·.fecha)
    ∧ (∀ r, r ∈ an9Ventana an9 ↔
        (r ∈ an9 ∧ (fechaMin u).key ≤ r.fecha.key ∧ r.fecha.key ≤ u.key))
    ∧ (∀ r ∈ an9, r.fecha = fechaMin u → r ∈ an9Ventana an9) := by
  match han9 : an9, h with
  | a :: as, h =>
    have hu : u = maxFechaAux a.fecha (as.map (·.fecha)) := by
      have : maxFecha ((a :: as).map (·.fecha))
          = some (maxFechaAux a.fecha (as.map (·.fecha))) := rfl
      rw [this] at h
      exact (Option.some.injEq _ _ ▸ h).symm
    have hmax : ∀ r ∈ a :: as, r.fecha.key ≤ u.key := by
      intro r hr
      rw [hu]
      apply maxFechaAux_key_le
      rcases List.mem_cons.mp hr with h2 | h2
      · subst h2; exact List.mem_cons_self _ _
      · exact List.mem_cons_of_mem _ (List.mem_map_of_mem (·.fecha) h2)
    have hvent : an9Ventana (a :: as) = (a :: as).filter (fun r =>
        decide ((fechaMin u).key ≤ r.fecha.key ∧ r.fecha.key ≤ u.key)) := by
      unfold an9Ventana
      rw [h]
    refine ⟨hmax, ?_, fun r => ?_, fun r hr hb => ?_⟩
    · rw [hu]
      exact maxFechaAux_mem a.fecha (as.map (·.fecha))
    · rw [hvent, List.mem_filter]
      constructor
      · rintro ⟨h1, h2⟩
        exact ⟨h1, of_decide_eq_true h2⟩
      · rintro ⟨h1, h2⟩
        exact ⟨h1, decide_eq_true h2⟩
    · rw [hvent, List.mem_filter]
      refine ⟨hr, decide_eq_true ⟨?_, ?_⟩⟩
      · rw [hb]
      · exact hmax r hr

/-- Loss register for the C5 witness: events at the latest date, exactly at
the lower window boundary, and one day before the boundary. -/
def a9c5 : List LossRow :=
  [{ referencia := "N", fecha := ⟨2024, 5, 20⟩, cuantiaBruta := some 1
     claseRiesgo := 11, cuentas := "" },
   { referencia := "B", fecha := ⟨2019, 5, 20⟩, cuantiaBruta := some 2
     claseRiesgo := 11, cuentas := "" },
   { referencia := "F", fecha := ⟨2019, 5, 19⟩, cuantiaBruta := some 3
     claseRiesgo := 11, cuentas := "" }]

/-- Witness for C5: with latest date 2024-05-20, the event dated exactly
2019-05-20 (the 60-month boundary) is retained and the event dated 2019-05-19
is dropped. -/
theorem ventana_correcta_witness :
    a9c5.get ⟨1, by decide⟩ ∈ an9Ventana a9c5
    ∧ a9c5.get ⟨2, by decide⟩ ∉ an9Ventana a9c5 := by
  have h := ventana_correcta a9c5 ⟨2024, 5, 20⟩ (by decide)
  constructor
  · exact h.2.2.2 _ (by decide) (by decide)
  · intro hmem
    have h2 := ((h.2.2.1 _).mp hmem).2
    revert h2
    decide

end IPI

namespace IPI

/-- C3: in the pipeline's output, a reference whose net-loss sum crosses the
threshold in at least one band makes every one of its rows — in every band —
come out classified "A"; any row of an unflagged reference comes out "B" when
its mapped category and band are in the Type-B flagged set and "N/A"
otherwise. -/
theorem prioridad_clasificacion (an9 : List LossRow) (an10 : List RecRow) (umbral : ℚ) :
    (∀ ref, (∃ b, (b, ref) ∈ dfFiltrado (mkData an9 an10) umbral) →
      ∀ p ∈ (ejecutarCalculo an9 an10 umbral).data, p.1.referencia = ref → p.2 = "A")
    ∧ (∀ p ∈ (ejecutarCalculo an9 an10 umbral).data,
        p.1.referencia ∉ refsUmbral (mkData an9 an10) umbral →
        ((∃ lbl, mapRiesgoNivel2 p.1.claseRiesgo = some lbl
            ∧ (lbl, bandaOf (mkData an9 an10) p.1) ∈ clasesB (mkData an9 an10) umbral)
          → p.2 = "B")
        ∧ (¬ (∃ lbl, mapRiesgoNivel2 p.1.claseRiesgo = some lbl
            ∧ (lbl, bandaOf (mkData an9 an10) p.1) ∈ clasesB (mkData an9 an10) umbral)
          → p.2 = "N/A")) := by
  constructor
  · rintro ref hex p hp href
    obtain ⟨r, -, rfl⟩ := List.mem_map.mp hp
    show asignarUmbral (mkData an9 an10) umbral r = "A"
    unfold asignarUmbral
    rw [if_pos]
    rw [show r.referencia = ref from href]
    exact (mem_refsUmbral_iff _ _ _).mpr hex
  · rintro p hp hnot
    obtain ⟨r, -, rfl⟩ := List.mem_map.mp hp
    dsimp only at hnot ⊢
    constructor
    · rintro ⟨lbl, hmap, hmem⟩
      show asignarUmbral (mkData an9 an10) umbral r = "B"
      unfold asignarUmbral
      rw [if_neg hnot, hmap]
      exact if_pos hmem
    · intro hno
      show asignarUmbral (mkData an9 an10) umbral r = "N/A"
      unfold asignarUmbral
      rw [if_neg hnot]
      cases hmap : mapRiesgoNivel2 r.claseRiesgo with
      | none => rfl
      | some lbl =>
        exact if_neg (fun hmem => hno ⟨lbl, hmap, hmem⟩)

/-- Loss register for the C3 witness: the reference "R" crosses the threshold
in band 1 only, yet also has a small event in band 2. -/
def a9c3 : List LossRow :=
  [{ referencia := "R", fecha := ⟨2023, 12, 1⟩, cuantiaBruta := some 100
     claseRiesgo := 11, cuentas := "" },
   { referencia := "R", fecha := ⟨2024, 12, 1⟩, cuantiaBruta := some 1
     claseRiesgo := 11, cuentas := "" }]

/-- The enriched band-2 row the pipeline produces for `a9c3`. -/
def filaC3 : DataRow :=
  { referencia := "R", fecha := ⟨2024, 12, 1⟩, fechaRecuperacion := none
    cuantiaBruta := 1, recuperacion := 0, perdidaNeta := 1, claseRiesgo := 11
    cuentas := "", cuentasRecuperacion := "" }

/-- Witness for C3: the band-2 row of reference "R" (which only crossed the
threshold in band 1) is still classified "A". -/
theorem prioridad_clasificacion_witness :
    asignarUmbral (mkData a9c3 []) 50 filaC3 = "A" :=
  (prioridad_clasificacion a9c3 [] 50).1 "R" ⟨1, by decide⟩
    (filaC3, asignarUmbral (mkData a9c3 []) 50 filaC3) (by decide) rfl

/-- C6: for calendar-valid dates, the band index is monotone along the
timeline, and it steps by exactly one across the October 31 / November 1
boundary of any year. -/
theorem banda_monotona (rows : List DataRow) :
    (∀ r1 r2 : DataRow, r1.fecha.Valid → r2.fecha.Valid →
      r1.fecha.key < r2.fecha.key → bandaOf rows r1 ≤ bandaOf rows r2)
    ∧ (∀ (y : Int) (r1 r2 : DataRow), r1.fecha = ⟨y, 10, 31⟩ → r2.fecha = ⟨y, 11, 1⟩ →
      bandaOf rows r2 = bandaOf rows r1 + 1) := by
  constructor
  · intro r1 r2 h1 h2 hlt
    have h := anioNov_mono h1 h2 hlt
    unfold bandaOf
    omega
  · intro y r1 r2 h1 h2
    unfold bandaOf
    rw [h1, h2]
    have e1 : anioNov ⟨y, 10, 31⟩ = y - 1 := by
      simp [anioNov]
    have e2 : anioNov ⟨y, 11, 1⟩ = y := by
      simp [anioNov]
    rw [e1, e2]
    omega

/-- Loss register for the C6 witness: one event on 2024-10-31 and one on
2024-11-01. -/
def a9c6 : List LossRow :=
  [{ referencia := "P", fecha := ⟨2024, 10, 31⟩, cuantiaBruta := some 10
     claseRiesgo := 11, cuentas := "" },
   { referencia := "Q", fecha := ⟨2024, 11, 1⟩, cuantiaBruta := some 20
     claseRiesgo := 11, cuentas := "" }]

/-- The enriched 2024-10-31 row the pipeline produces for `a9c6`. -/
def filaC6a : DataRow :=
  { referencia := "P", fecha := ⟨2024, 10, 31⟩, fechaRecuperacion := none
    cuantiaBruta := 10, recuperacion := 0, perdidaNeta := 10, claseRiesgo := 11
    cuentas := "", cuentasRecuperacion := "" }

/-- The enriched 2024-11-01 row the pipeline produces for `a9c6`. -/
def filaC6b : DataRow :=
  { referencia := "Q", fecha := ⟨2024, 11, 1⟩, fechaRecuperacion := none
    cuantiaBruta := 20, recuperacion := 0, perdidaNeta := 20, claseRiesgo := 11
    cuentas := "", cuentasRecuperacion := "" }

/-- Witness for C6: across 2024-10-31 → 2024-11-01 the band is monotone and
steps by exactly one. -/
theorem banda_monotona_witness :
    bandaOf (mkData a9c6 []) filaC6a ≤ bandaOf (mkData a9c6 []) filaC6b
    ∧ bandaOf (mkData a9c6 []) filaC6b = bandaOf (mkData a9c6 []) filaC6a + 1 :=
  ⟨(banda_monotona (mkData a9c6 [])).1 filaC6a filaC6b (by decide) (by decide) (by decide),
   (banda_monotona (mkData a9c6 [])).2 2024 filaC6a filaC6b rfl rfl⟩

end IPI

namespace IPI

/-! ### C8: effect of the calculation on its input frames -/

/-- Spreadsheet cell value, used to model columns that `ejecutar_calculo` adds
to a caller's frame in place. -/
inductive Celda where
  | num : Option ℚ → Celda
  | txt : String → Celda
deriving DecidableEq

/-- State of the caller's `An9` after `ejecutar_calculo` (line 163): the date
column is reassigned with its parsed values.  Dates are already parsed in this
embedding, so the reassignment preserves the register; the window filter then
works on a copy (`An9_2 = ... .copy()`). -/
def an9Mutado (an9 : List LossRow) : List LossRow := an9

/-- State of the caller's `An10` after `ejecutar_calculo` (lines 177–181):
each row has gained, in place, the duplicated catalogue column and the derived
`Recuperacion` column.  A register as passed in carries no extra columns. -/
def an10Mutado (an10 : List RecRow) : List (RecRow × List (String × Celda)) :=
  an10.map (fun r =>
    (r, [("Cuentas Catálogo Recuperación", Celda.txt r.cuentas),
         ("Recuperacion", Celda.num (recuperacionRow r))]))

/-- Recovery row used by the C8 counterexample and witness. -/
def recC8 : RecRow :=
  { referencia := "E1", fechaRecuperacion := ⟨2024, 1, 1⟩, seguros := some 5
    otras := some 3, cuentas := "C" }

/-- C8 counterexample: after a calculation run the recoveries register passed
in is NOT unchanged — it differs from its original column-free state. -/
theorem efecto_entradas_contraejemplo :
    an10Mutado [recC8] ≠ [recC8].map (fun r => (r, ([] : List (String × Celda)))) := by
  decide

/-- C8 (amended): the loss register's rows are preserved (the date column is
only reassigned with its parsed values, and the window filter returns a copy),
and the recoveries register keeps all its rows and row contents but gains
exactly the two derived columns `Cuentas Catálogo Recuperación` and
`Recuperacion` in place. -/
theorem efecto_entradas (an9 : List LossRow) (an10 : List RecRow) :
    an9Mutado an9 = an9
    ∧ (an10Mutado an10).map (·.1) = an10
    ∧ ∀ p ∈ an10Mutado an10,
        p.2.map (·.1) = ["Cuentas Catálogo Recuperación", "Recuperacion"] := by
  refine ⟨rfl, ?_, ?_⟩
  · rw [an10Mutado, List.map_map]
    exact List.map_id'' (fun r => rfl) an10
  · intro p hp
    obtain ⟨r, -, rfl⟩ := List.mem_map.mp hp
    rfl

/-- Witness for C8's amended statement: the mutated register built from
`recC8` carries exactly the two derived column names. -/
theorem efecto_entradas_witness :
    (recC8,
      [("Cuentas Catálogo Recuperación", Celda.txt "C"),
       ("Recuperacion", Celda.num (some 8))]).2.map (·.1)
      = ["Cuentas Catálogo Recuperación", "Recuperacion"] :=
  (efecto_entradas [] [recC8]).2.2 _ (by decide)

/-! ### C9: tolerant numeric parsing

Line 178 adds the two raw recovery columns before any numeric coercion
happens (the only coercion of recoveries is the post-merge one of line 196).
A cell that fails numeric coercion is therefore still a non-null text value at
that point, and pandas raises `TypeError` when a text cell is added to a
number or to a float `NaN`, aborting `ejecutar_calculo`; two text cells
concatenate.  Only a missing cell — float `NaN`, which does not fail numeric
coercion — propagates through the addition and is later dropped by the
`NaN`-skipping group sum.  The raw cells are modelled by `CeldaRec` and the
fallible addition by `suma178`. -/

/-- Raw spreadsheet cell of a recovery amount column, as `pd.read_excel`
yields it: a parsed number, a missing cell (float `NaN`), or an unparseable
text cell.  Only the text cell fails numeric coercion. -/
inductive CeldaRec where
  | num : ℚ → CeldaRec
  | faltante : CeldaRec
  | texto : String → CeldaRec
deriving DecidableEq

/-- Whether a raw cell is unparseable text. -/
def esTexto : CeldaRec → Bool
  | .texto _ => true
  | _ => false

/-- Row of `An10` as read from the spreadsheet, before line 178 touches it. -/
structure RecRowCrudo where
  referencia : String
  fechaRecuperacion : Date
  seguros : CeldaRec
  otras : CeldaRec
  cuentas : String
deriving DecidableEq

/-- Element-wise addition of the two raw recovery columns (line 178) with
pandas object-dtype semantics: numbers add, a missing (`NaN`) cell propagates
through numbers and other `NaN`s, two text cells concatenate, and a text cell
added to a number or to `NaN` raises `TypeError`, modelled `none`. -/
def suma178 : CeldaRec → CeldaRec → Option CeldaRec
  | .num a, .num b => some (.num (a + b))
  | .num _, .faltante => some .faltante
  | .faltante, .num _ => some .faltante
  | .faltante, .faltante => some .faltante
  | .texto s, .texto t => some (.texto (s ++ t))
  | _, _ => none

/-- Line 178 over the whole raw register.  The addition is the first thing
`ejecutar_calculo` does to `An10`, so a `TypeError` in it aborts the whole
calculation, modelled `none`; otherwise every row carries its derived raw
`Recuperacion` cell. -/
def recuperacion178 : List RecRowCrudo → Option (List (RecRowCrudo × CeldaRec))
  | [] => some []
  | r :: rs =>
    match suma178 r.seguros r.otras, recuperacion178 rs with
    | some c, some rest => some ((r, c) :: rest)
    | _, _ => none

/-- Float value of a numeric-or-missing raw cell (`NaN` as `none`); text —
excluded wherever this is used — also goes to `none`. -/
def celdaANum : CeldaRec → Option ℚ
  | .num a => some a
  | _ => none

/-- Raw cell carrying a float value (`NaN` as `faltante`). -/
def celdaDeOpcion : Option ℚ → CeldaRec
  | some a => .num a
  | none => .faltante

/-- The `RecRow` a raw row without text cells amounts to. -/
def recRowDeCrudo (r : RecRowCrudo) : RecRow :=
  { referencia := r.referencia, fechaRecuperacion := r.fechaRecuperacion
    seguros := celdaANum r.seguros, otras := celdaANum r.otras, cuentas := r.cuentas }

/-- Reading of C9 as stated: a cell that fails numeric coercion is itself
replaced by `0`, keeping the row's other cell. -/
def celdaACero : CeldaRec → CeldaRec
  | .texto _ => .num 0
  | c => c

/-- The claim's reading applied to a raw row. -/
def crudoCeldasACero (r : RecRowCrudo) : RecRowCrudo :=
  { r with seguros := celdaACero r.seguros, otras := celdaACero r.otras }

/-- Raw recovery row pairing an unparseable `Cuantia_recuperada_por_seguros`
cell with a valid 5 in `Cuantia_de_otras_recuperaciones`. -/
def recC9crudo : RecRowCrudo :=
  { referencia := "R", fechaRecuperacion := ⟨2024, 1, 1⟩
    seguros := CeldaRec.texto "x", otras := CeldaRec.num 5, cuentas := "" }

/-- C9 counterexample: a recovery cell that fails numeric coercion is not
treated as `0`, and it does surface as a failure — line 178's raw-column
addition raises `TypeError` on text plus number, aborting the run, where the
claim's reading (the malformed cell alone replaced by `0`) would complete
with a row recovery of 5. -/
theorem parseo_tolerante_contraejemplo :
    recuperacion178 [recC9crudo] = none
    ∧ recuperacion178 [crudoCeldasACero recC9crudo]
        = some [(crudoCeldasACero recC9crudo, CeldaRec.num 5)] := by
  decide

/-- Gross-loss normalisation of line 202: a malformed gross-loss cell is
exactly a `0` cell. -/
def brutaACero (r : LossRow) : LossRow :=
  { r with cuantiaBruta := some (r.cuantiaBruta.getD 0) }

/-- Recovery-row normalisation: a row either of whose amount cells is missing
(float `NaN`) has `NaN` recovery, which the `NaN`-skipping group sum drops —
it contributes `0` in total, as if both cells were `0`. -/
def recFilaACero (r : RecRow) : RecRow :=
  if (recuperacionRow r).isSome then r else { r with seguros := some 0, otras := some 0 }

theorem brutaACero_referencia (r : LossRow) : (brutaACero r).referencia = r.referencia := rfl

theorem brutaACero_fecha (r : LossRow) : (brutaACero r).fecha = r.fecha := rfl

theorem brutaACero_claseRiesgo (r : LossRow) : (brutaACero r).claseRiesgo = r.claseRiesgo := rfl

theorem brutaACero_cuentas (r : LossRow) : (brutaACero r).cuentas = r.cuentas := rfl

theorem brutaACero_getD (r : LossRow) :
    (brutaACero r).cuantiaBruta.getD 0 = r.cuantiaBruta.getD 0 := rfl

theorem recFilaACero_referencia (r : RecRow) :
    (recFilaACero r).referencia = r.referencia := by
  unfold recFilaACero
  split <;> rfl

theorem recFilaACero_fechaRecuperacion (r : RecRow) :
    (recFilaACero r).fechaRecuperacion = r.fechaRecuperacion := by
  unfold recFilaACero
  split <;> rfl

theorem recFilaACero_cuentas (r : RecRow) :
    (recFilaACero r).cuentas = r.cuentas := by
  unfold recFilaACero
  split <;> rfl

theorem recFilaACero_getD (r : RecRow) :
    (recuperacionRow (recFilaACero r)).getD 0 = (recuperacionRow r).getD 0 := by
  unfold recFilaACero
  split
  · rfl
  · rename_i h
    rw [Option.not_isSome_iff_eq_none.mp h]
    rfl

theorem filter_recFilaACero (an10 : List RecRow) (ref : String) :
    (an10.map recFilaACero).filter (fun r => decide (r.referencia = ref))
      = (an10.filter (fun r => decide (r.referencia = ref))).map recFilaACero := by
  rw [List.filter_map]
  congr 1
  apply List.filter_congr
  intro x _
  simp [recFilaACero_referencia]

theorem recuperacionRef_recFilaACero (an10 : List RecRow) (ref : String) :
    recuperacionRef (an10.map recFilaACero) ref = recuperacionRef an10 ref := by
  unfold recuperacionRef
  rw [filter_recFilaACero, List.map_map]
  congr 1
  apply List.map_congr_left
  intro r _
  exact recFilaACero_getD r

theorem fechaRecuperacionRef_recFilaACero (an10 : List RecRow) (ref : String) :
    fechaRecuperacionRef (an10.map recFilaACero) ref = fechaRecuperacionRef an10 ref := by
  unfold fechaRecuperacionRef
  rw [filter_recFilaACero, List.map_map]
  congr 1
  apply List.map_congr_left
  intro r _
  exact recFilaACero_fechaRecuperacion r

theorem catalogoRef_recFilaACero (an10 : List RecRow) (ref : String) :
    catalogoRef (an10.map recFilaACero) ref = catalogoRef an10 ref := by
  unfold catalogoRef
  rw [filter_recFilaACero, List.head?_map]
  cases h : (an10.filter (fun r => decide (r.referencia = ref))).head? with
  | none => rfl
  | some x =>
    simp [h, recFilaACero_cuentas]

theorem ventana_brutaACero (an9 : List LossRow) :
    an9Ventana (an9.map brutaACero) = (an9Ventana an9).map brutaACero := by
  unfold an9Ventana
  have hm : (an9.map brutaACero).map (·.fecha) = an9.map (·.fecha) := by
    rw [List.map_map]
    rfl
  rw [hm]
  cases maxFecha (an9.map (·.fecha)) with
  | none => rfl
  | some u =>
    show List.filter (fun r => decide ((fechaMin u).key ≤ r.fecha.key ∧ r.fecha.key ≤ u.key))
        (an9.map brutaACero)
      = List.map brutaACero
        (List.filter (fun r => decide ((fechaMin u).key ≤ r.fecha.key ∧ r.fecha.key ≤ u.key)) an9)
    rw [List.filter_map]
    rfl

theorem mkData_tolerante (an9 : List LossRow) (an10 : List RecRow) :
    mkData (an9.map brutaACero) (an10.map recFilaACero) = mkData an9 an10 := by
  unfold mkData
  rw [ventana_brutaACero, List.map_map]
  apply List.map_congr_left
  intro r _
  simp only [Function.comp_apply, brutaACero_referencia, brutaACero_fecha,
    brutaACero_claseRiesgo, brutaACero_cuentas, brutaACero_getD,
    recuperacionRef_recFilaACero, fechaRecuperacionRef_recFilaACero,
    catalogoRef_recFilaACero]

theorem suma178_sinTexto (s o : CeldaRec) (hs : esTexto s = false) (ho : esTexto o = false) :
    suma178 s o = some (celdaDeOpcion (nanSuma (celdaANum s) (celdaANum o))) := by
  cases s <;> cases o <;> first | rfl | simp [esTexto] at hs ho

/-- C9 (amended): the tolerance is split.  A gross-loss cell that is missing
or fails numeric coercion behaves as a `0` cell and the run completes.  On the
recovery side only missing (`NaN`) cells — which do not fail numeric
coercion — are defaulted: a row either of whose amount cells is missing
recovers `0` in total (its valid cell is dropped too) and the run completes,
line 178 succeeding row by row with the `NaN`-propagating addition on any
register free of text cells; but a recovery cell that does fail numeric
coercion, added to a number or to a missing cell, raises `TypeError` and
aborts the run — a malformed recovery cell can surface as a failure. -/
theorem parseo_tolerante :
    (∀ (an9 : List LossRow) (an10 : List RecRow) (umbral : ℚ),
      ejecutarCalculo (an9.map brutaACero) (an10.map recFilaACero) umbral
        = ejecutarCalculo an9 an10 umbral)
    ∧ (∀ r : RecRow, r.seguros = none ∨ r.otras = none → (recuperacionRow r).getD 0 = 0)
    ∧ (∀ an10c : List RecRowCrudo,
        (∀ r ∈ an10c, esTexto r.seguros = false ∧ esTexto r.otras = false) →
        recuperacion178 an10c
          = some (an10c.map (fun r =>
              (r, celdaDeOpcion (recuperacionRow (recRowDeCrudo r))))))
    ∧ (∀ (s : String) (q : ℚ),
        suma178 (CeldaRec.texto s) (CeldaRec.num q) = none
        ∧ suma178 (CeldaRec.num q) (CeldaRec.texto s) = none
        ∧ suma178 (CeldaRec.texto s) CeldaRec.faltante = none
        ∧ suma178 CeldaRec.faltante (CeldaRec.texto s) = none) := by
  refine ⟨fun an9 an10 umbral => ?_, fun r h => ?_, fun an10c => ?_,
    fun s q => ⟨rfl, rfl, rfl, rfl⟩⟩
  · unfold ejecutarCalculo
    rw [mkData_tolerante]
  · rcases h with h | h
    · unfold recuperacionRow nanSuma
      rw [h]
      cases r.otras <;> rfl
    · unfold recuperacionRow nanSuma
      rw [h]
      cases r.seguros <;> rfl
  · induction an10c with
    | nil =>
      intro h
      rfl
    | cons r rs ih =>
      intro h
      have hr := h r (List.mem_cons_self _ _)
      have hrest := ih (fun x hx => h x (List.mem_cons_of_mem _ hx))
      unfold recuperacion178
      rw [suma178_sinTexto r.seguros r.otras hr.1 hr.2, hrest]
      rfl

/-- Raw recovery row with a missing `Cuantia_recuperada_por_seguros` cell and
a valid 5, exercising the `NaN` path of line 178. -/
def recC9crudoOk : RecRowCrudo :=
  { referencia := "R", fechaRecuperacion := ⟨2024, 1, 1⟩
    seguros := CeldaRec.faltante, otras := CeldaRec.num 5, cuentas := "" }

/-- Witness for C9's amended statement: a register whose only anomaly is a
missing cell passes line 178 with a `NaN` row recovery, and that row
contributes `0` recovery in total. -/
theorem parseo_tolerante_witness :
    recuperacion178 [recC9crudoOk] = some [(recC9crudoOk, CeldaRec.faltante)]
    ∧ (recuperacionRow (recRowDeCrudo recC9crudoOk)).getD 0 = 0 :=
  ⟨(parseo_tolerante.2.2.1 [recC9crudoOk] (by decide)).trans (by decide),
   parseo_tolerante.2.1 (recRowDeCrudo recC9crudoOk) (Or.inl (by decide))⟩

end IPI
